import Mathlib

/-!
# QtAV VA-API display helper: src/vaapi/vaapi_helper.cpp

A shallow embedding of the display helper.  Every call that leaves the
translation unit (Qt's QLibrary, Xlib, open/close, libva, the EGL query) is an
oracle of an environment `Env`; each oracle receives the log of the calls made
so far, so its answer may change from one call to the next.  The program is
written in explicit state-passing style: every operation takes the log and
hands back the extended log.

`assert` is the C macro with NDEBUG undefined (the file never defines it): a
failed assertion ends the run.  The wrappers of X11_API assert their function
pointer and then call through it, so an unresolved symbol ends the run there
in every build.
-/

namespace QtAV
namespace vaapi

/-! ## Data model -/

/-- Modelled from the spec: the backend tag NativeDisplay::Type. Its declaration
is in vaapi_helper.h, which is not among the sources; the spec lists the tags
X11, GLX, DRM, VA and Auto. -/
inductive NativeDisplayType where
  | X11
  | GLX
  | DRM
  | VA
  | Auto
  deriving DecidableEq, Repr

/-- Modelled from the spec: the request NativeDisplay (declared in
vaapi_helper.h): an intptr_t handle and a backend tag. -/
structure NativeDisplay where
  handle : Int
  type : NativeDisplayType
  deriving DecidableEq, Repr

/-- The preprocessor symbols the translation unit tests. -/
structure Build where
  QT_NO_OPENGL : Bool
  WORKAROUND_VATERMINATE_CRASH : Bool
  deriving DecidableEq, Repr

/-- One call that leaves the translation unit, with the value it returned. -/
inductive Call where
  | libLoad (fileName : String) (version : Option Int) (ok : Bool)
  | libResolve (symbol : String) (ok : Bool)
  | XInitThreads (ret : Int)
  | XOpenDisplay (name : Option String) (ret : Int)
  | XCloseDisplay (dpy : Int)
  | sysOpen (path : String) (ret : Int)
  | sysClose (fd : Int)
  | vaGetDisplay (dpy : Int) (ret : Int)
  | vaGetDisplayGLX (dpy : Int) (ret : Int)
  | vaGetDisplayDRM (fd : Int) (ret : Int)
  | vaInitialize (dpy : Int) (status : Int)
  | vaTerminate (dpy : Int) (status : Int)
  deriving DecidableEq, Repr

/-- The external primitives.  Each oracle sees the log of earlier calls.
`isEGL` is the query OpenGLHelper::isEGL().
`sysOpen` follows open(2): a descriptor (non-negative) or failure, which the
caller sees as -1.  `vaInitialize` yields the status and the version pair.
The three `isLoaded` flags are what VAAPI_X11::isLoaded(), VAAPI_GLX::isLoaded()
and VAAPI_DRM::isLoaded() answer (those mixins are declared in vaapi_helper.h).
`indeterminate` is the value read from m_selfCreated when nothing wrote it:
the constructor of NativeDisplayBase initialises m_handle only. -/
structure Env where
  load : List Call → String → Option Int → Bool
  resolve : List Call → String → Bool
  XInitThreads : List Call → Int
  XOpenDisplay : List Call → Option String → Int
  sysOpen : List Call → String → Option Nat
  isLoadedX11 : Bool
  isLoadedGLX : Bool
  isLoadedDRM : Bool
  vaGetDisplay : List Call → Int → Int
  vaGetDisplayGLX : List Call → Int → Int
  vaGetDisplayDRM : List Call → Int → Int
  isEGL : List Call → Bool
  vaInitialize : List Call → Int → Int × Int × Int
  vaTerminate : List Call → Int → Int
  indeterminate : Bool

/-- Result of running a piece of the program from a given log: an ordinary
return with a value, or a run ended by a failed assertion. -/
inductive Run (α : Type) where
  | ret (a : α) (log : List Call)
  | aborted (log : List Call)
  deriving DecidableEq, Repr

/-- The log a run leaves behind. -/
def Run.log {α : Type} : Run α → List Call
  | Run.ret _ t => t
  | Run.aborted t => t

/-- Conversion of an intptr_t to the C type int (32 bits, two's complement),
as happens when m_handle is passed to close and to vaGetDisplayDRM. -/
def toCInt (x : Int) : Int := (x + 2 ^ 31) % 2 ^ 32 - 2 ^ 31

/-- The status VA_STATUS_SUCCESS of libva. -/
def VA_STATUS_SUCCESS : Int := 0

/-! ## dll_helper -/

/-- The part of Qt's QLibrary the helper uses: the file name and version set
last, and whether a load succeeded. -/
structure QLibrary where
  fileName : String
  version : Option Int
  loaded : Bool
  deriving DecidableEq, Repr

/-- The class dll_helper: it owns one QLibrary. -/
structure dll_helper where
  m_lib : QLibrary
  deriving DecidableEq, Repr

/-- QLibrary::load on the current file name and version. -/
def QLibrary.load (env : Env) (lib : QLibrary) (t : List Call) : QLibrary × List Call :=
  let ok := env.load t lib.fileName lib.version
  ({ lib with loaded := ok }, t ++ [Call.libLoad lib.fileName lib.version ok])

/-- The constructor dll_helper::dll_helper(soname, version), lines 32-48. -/
def dll_helper.new (env : Env) (soname : String) (version : Int) (t : List Call) :
    dll_helper × List Call :=
  let lib0 : QLibrary :=
    if version ≥ 0 then { fileName := soname, version := some version, loaded := false }
    else { fileName := soname, version := none, loaded := false }
  let r1 := lib0.load env t
  if r1.1.loaded then
    ({ m_lib := r1.1 }, r1.2)
  else if version ≥ 0 then
    let lib1 : QLibrary := { fileName := soname, version := none, loaded := false }
    let r2 := lib1.load env r1.2
    ({ m_lib := r2.1 }, r2.2)
  else
    ({ m_lib := r1.1 }, r1.2)

/-- The accessor dll_helper::isLoaded. -/
def dll_helper.isLoaded (self : dll_helper) : Bool := self.m_lib.loaded

/-- Modelled from the spec: dll_helper::resolve is declared in vaapi_helper.h,
which is not among the sources.  Resolving on a loaded library gives a function
pointer or null; a library that is not loaded resolves nothing.  The Bool says
whether the pointer is non-null. -/
def dll_helper.resolve (env : Env) (self : dll_helper) (symbol : String) (t : List Call) :
    Bool × List Call :=
  let ok := self.m_lib.loaded && env.resolve t symbol
  (ok, t ++ [Call.libResolve symbol ok])

/-! ## X11_API -/

/-- The class X11_API: a dll_helper for libX11 and three function pointers
(true when non-null). -/
structure X11_API where
  lib : dll_helper
  fp_XOpenDisplay : Bool
  fp_XCloseDisplay : Bool
  fp_XInitThreads : Bool
  deriving DecidableEq, Repr

/-- The constructor X11_API::X11_API, lines 98-102. -/
def X11_API.new (env : Env) (t : List Call) : X11_API × List Call :=
  let h := dll_helper.new env "X11" 6 t
  let o := h.1.resolve env "XOpenDisplay" h.2
  let c := h.1.resolve env "XCloseDisplay" o.2
  let i := h.1.resolve env "XInitThreads" c.2
  ({ lib := h.1, fp_XOpenDisplay := o.1, fp_XCloseDisplay := c.1, fp_XInitThreads := i.1 }, i.2)

/-- The wrapper X11_API::XOpenDisplay, lines 103-106. -/
def X11_API.XOpenDisplay (env : Env) (self : X11_API) (name : Option String) (t : List Call) :
    Run Int :=
  if self.fp_XOpenDisplay then
    Run.ret (env.XOpenDisplay t name) (t ++ [Call.XOpenDisplay name (env.XOpenDisplay t name)])
  else Run.aborted t

/-- The wrapper X11_API::XCloseDisplay, lines 107-110; the status is dropped by
every caller. -/
def X11_API.XCloseDisplay (self : X11_API) (dpy : Int) (t : List Call) : Run Unit :=
  if self.fp_XCloseDisplay then Run.ret () (t ++ [Call.XCloseDisplay dpy])
  else Run.aborted t

/-- The wrapper X11_API::XInitThreads, lines 111-114. -/
def X11_API.XInitThreads (env : Env) (self : X11_API) (t : List Call) : Run Int :=
  if self.fp_XInitThreads then
    Run.ret (env.XInitThreads t) (t ++ [Call.XInitThreads (env.XInitThreads t)])
  else Run.aborted t

/-! ## NativeDisplayBase and its four subclasses -/

/-- The fields of NativeDisplayBase. -/
structure NativeDisplayBase where
  m_handle : Int
  m_selfCreated : Bool
  deriving DecidableEq, Repr

/-- The constructor NativeDisplayBase::NativeDisplayBase, line 124: m_handle(0),
m_selfCreated left unwritten. -/
def NativeDisplayBase.new (env : Env) : NativeDisplayBase :=
  { m_handle := 0, m_selfCreated := env.indeterminate }

/-- The method NativeDisplayBase::acceptValidExternalHandle, lines 130-137. -/
def NativeDisplayBase.acceptValidExternalHandle (self : NativeDisplayBase)
    (display : NativeDisplay) : Bool × NativeDisplayBase :=
  if display.handle ≠ 0 ∧ display.handle ≠ -1 then
    (true, { m_handle := display.handle, m_selfCreated := false })
  else (false, self)

/-- The class NativeDisplayX11: its NativeDisplayBase and X11_API bases. The
third base, VAAPI_X11, is declared in vaapi_helper.h; it appears here through
the oracles isLoadedX11 and vaGetDisplay, and the library loading done by its
constructor is not logged. -/
structure NativeDisplayX11 where
  base : NativeDisplayBase
  x11 : X11_API
  deriving DecidableEq, Repr

/-- The class NativeDisplayGLX (compiled when QT_NO_OPENGL is undefined): its
NativeDisplayBase and X11_API bases. The base VAAPI_GLX, declared in
vaapi_helper.h, appears through the oracles isLoadedGLX and vaGetDisplayGLX. -/
structure NativeDisplayGLX where
  base : NativeDisplayBase
  x11 : X11_API
  deriving DecidableEq, Repr

/-- The class NativeDisplayDrm: its NativeDisplayBase base. The base VAAPI_DRM,
declared in vaapi_helper.h, appears through the oracles isLoadedDRM and
vaGetDisplayDRM. -/
structure NativeDisplayDrm where
  base : NativeDisplayBase
  deriving DecidableEq, Repr

/-- The class NativeDisplayVADisplay. -/
structure NativeDisplayVADisplay where
  base : NativeDisplayBase
  deriving DecidableEq, Repr

/-- The constructor NativeDisplayX11(), line 145, with its X11_API base. -/
def NativeDisplayX11.new (env : Env) (t : List Call) : NativeDisplayX11 × List Call :=
  ({ base := NativeDisplayBase.new env, x11 := (X11_API.new env t).1 }, (X11_API.new env t).2)

/-- The constructor NativeDisplayGLX(), line 176, with its X11_API base. -/
def NativeDisplayGLX.new (env : Env) (t : List Call) : NativeDisplayGLX × List Call :=
  ({ base := NativeDisplayBase.new env, x11 := (X11_API.new env t).1 }, (X11_API.new env t).2)

/-- The constructor NativeDisplayDrm(), line 206. -/
def NativeDisplayDrm.new (env : Env) : NativeDisplayDrm :=
  { base := NativeDisplayBase.new env }

/-- The constructor NativeDisplayVADisplay(), line 243. -/
def NativeDisplayVADisplay.new (env : Env) : NativeDisplayVADisplay :=
  { base := NativeDisplayBase.new env }

/-- The method NativeDisplayX11::initialize, lines 150-162. -/
def NativeDisplayX11.init (env : Env) (self : NativeDisplayX11) (display : NativeDisplay)
    (t : List Call) : Run (Bool × NativeDisplayX11) :=
  if display.type = NativeDisplayType.X11 ∨ display.type = NativeDisplayType.Auto then
    if (self.base.acceptValidExternalHandle display).1 then
      Run.ret (true, { self with base := (self.base.acceptValidExternalHandle display).2 }) t
    else
      match self.x11.XInitThreads env t with
      | Run.aborted t1 => Run.aborted t1
      | Run.ret r t1 =>
        if r = 0 then Run.ret (false, self) t1
        else
          match self.x11.XOpenDisplay env none t1 with
          | Run.aborted t2 => Run.aborted t2
          | Run.ret h t2 =>
            Run.ret (decide (h ≠ 0), { self with base := { m_handle := h, m_selfCreated := true } }) t2
  else Run.aborted t

/-- The method NativeDisplayGLX::initialize, lines 181-193. -/
def NativeDisplayGLX.init (env : Env) (self : NativeDisplayGLX) (display : NativeDisplay)
    (t : List Call) : Run (Bool × NativeDisplayGLX) :=
  if display.type = NativeDisplayType.GLX ∨ display.type = NativeDisplayType.Auto then
    if (self.base.acceptValidExternalHandle display).1 then
      Run.ret (true, { self with base := (self.base.acceptValidExternalHandle display).2 }) t
    else
      match self.x11.XInitThreads env t with
      | Run.aborted t1 => Run.aborted t1
      | Run.ret r t1 =>
        if r = 0 then Run.ret (false, self) t1
        else
          match self.x11.XOpenDisplay env none t1 with
          | Run.aborted t2 => Run.aborted t2
          | Run.ret h t2 =>
            Run.ret (decide (h ≠ 0), { self with base := { m_handle := h, m_selfCreated := true } }) t2
  else Run.aborted t

/-- The table drm_dev of NativeDisplayDrm::initialize, lines 217-221, without
its terminating NULL. -/
def drm_dev : List String := ["/dev/dri/renderD128", "/dev/dri/card0"]

/-- The value open(2) hands to its caller: the descriptor, or -1 on failure. -/
def openRet : Option Nat → Int
  | some fd => (fd : Int)
  | none => -1

/-- The probing loop of NativeDisplayDrm::initialize, lines 222-228: the
arguments are the entries not yet tried and the current m_handle; the result
is m_handle when the loop ends. -/
def drmProbe (env : Env) : List String → Int → List Call → Int × List Call
  | [], m_handle, t => (m_handle, t)
  | dev :: rest, _, t =>
    if openRet (env.sysOpen t dev) < 0 then
      drmProbe env rest (openRet (env.sysOpen t dev))
        (t ++ [Call.sysOpen dev (openRet (env.sysOpen t dev))])
    else
      (openRet (env.sysOpen t dev), t ++ [Call.sysOpen dev (openRet (env.sysOpen t dev))])

/-- The method NativeDisplayDrm::initialize, lines 211-231. -/
def NativeDisplayDrm.init (env : Env) (self : NativeDisplayDrm) (display : NativeDisplay)
    (t : List Call) : Run (Bool × NativeDisplayDrm) :=
  if display.type = NativeDisplayType.DRM ∨ display.type = NativeDisplayType.Auto then
    if (self.base.acceptValidExternalHandle display).1 then
      Run.ret (true, { base := (self.base.acceptValidExternalHandle display).2 }) t
    else
      Run.ret
        (decide ((drmProbe env drm_dev self.base.m_handle t).1 ≠ -1),
          { base := { m_handle := (drmProbe env drm_dev self.base.m_handle t).1,
                      m_selfCreated := true } })
        (drmProbe env drm_dev self.base.m_handle t).2
  else Run.aborted t

/-- The method NativeDisplayVADisplay::initialize, lines 244-247. -/
def NativeDisplayVADisplay.init (self : NativeDisplayVADisplay) (display : NativeDisplay)
    (t : List Call) : Run (Bool × NativeDisplayVADisplay) :=
  if display.type = NativeDisplayType.VA then
    Run.ret ((self.base.acceptValidExternalHandle display).1,
      { base := (self.base.acceptValidExternalHandle display).2 }) t
  else Run.aborted t

/-- The method NativeDisplayX11::getVADisplay, lines 163-169. -/
def NativeDisplayX11.getVADisplay (env : Env) (self : NativeDisplayX11) (t : List Call) :
    Int × List Call :=
  if self.base.m_handle = 0 then (0, t)
  else if !env.isLoadedX11 then (0, t)
  else (env.vaGetDisplay t self.base.m_handle,
    t ++ [Call.vaGetDisplay self.base.m_handle (env.vaGetDisplay t self.base.m_handle)])

/-- The method NativeDisplayGLX::getVADisplay, lines 194-200. -/
def NativeDisplayGLX.getVADisplay (env : Env) (self : NativeDisplayGLX) (t : List Call) :
    Int × List Call :=
  if self.base.m_handle = 0 then (0, t)
  else if !env.isLoadedGLX then (0, t)
  else (env.vaGetDisplayGLX t self.base.m_handle,
    t ++ [Call.vaGetDisplayGLX self.base.m_handle (env.vaGetDisplayGLX t self.base.m_handle)])

/-- The method NativeDisplayDrm::getVADisplay, lines 232-238. -/
def NativeDisplayDrm.getVADisplay (env : Env) (self : NativeDisplayDrm) (t : List Call) :
    Int × List Call :=
  if self.base.m_handle = -1 then (0, t)
  else if !env.isLoadedDRM then (0, t)
  else (env.vaGetDisplayDRM t (toCInt self.base.m_handle),
    t ++ [Call.vaGetDisplayDRM (toCInt self.base.m_handle)
            (env.vaGetDisplayDRM t (toCInt self.base.m_handle))])

/-- The method NativeDisplayVADisplay::getVADisplay, line 248. -/
def NativeDisplayVADisplay.getVADisplay (self : NativeDisplayVADisplay) (t : List Call) :
    Int × List Call :=
  (self.base.m_handle, t)

/-- The destructor of NativeDisplayX11, lines 146-149. -/
def NativeDisplayX11.destroy (self : NativeDisplayX11) (t : List Call) : Run Unit :=
  if self.base.m_selfCreated ∧ self.base.m_handle ≠ 0 then
    self.x11.XCloseDisplay self.base.m_handle t
  else Run.ret () t

/-- The destructor of NativeDisplayGLX, lines 177-180. -/
def NativeDisplayGLX.destroy (self : NativeDisplayGLX) (t : List Call) : Run Unit :=
  if self.base.m_selfCreated ∧ self.base.m_handle ≠ 0 then
    self.x11.XCloseDisplay self.base.m_handle t
  else Run.ret () t

/-- The destructor of NativeDisplayDrm, lines 207-210. -/
def NativeDisplayDrm.destroy (self : NativeDisplayDrm) (t : List Call) : Run Unit :=
  if self.base.m_selfCreated ∧ self.base.m_handle ≠ 0 ∧ self.base.m_handle ≠ -1 then
    Run.ret () (t ++ [Call.sysClose (toCInt self.base.m_handle)])
  else Run.ret () t

/-- The destructor of NativeDisplayVADisplay: the class declares none, so only
the empty destructor of NativeDisplayBase runs. -/
def NativeDisplayVADisplay.destroy (_self : NativeDisplayVADisplay) (t : List Call) : Run Unit :=
  Run.ret () t

/-- The object behind a non-null NativeDisplayPtr: one of the four subclasses
of NativeDisplayBase. -/
inductive Native where
  | x11 (o : NativeDisplayX11)
  | glx (o : NativeDisplayGLX)
  | drm (o : NativeDisplayDrm)
  | va (o : NativeDisplayVADisplay)
  deriving DecidableEq, Repr

/-- The NativeDisplayBase part of an object. -/
def Native.base : Native → NativeDisplayBase
  | Native.x11 o => o.base
  | Native.glx o => o.base
  | Native.drm o => o.base
  | Native.va o => o.base

/-- The object with its NativeDisplayBase part replaced. -/
def Native.withBase : Native → NativeDisplayBase → Native
  | Native.x11 o, b => Native.x11 { o with base := b }
  | Native.glx o, b => Native.glx { o with base := b }
  | Native.drm _, b => Native.drm { base := b }
  | Native.va _, b => Native.va { base := b }

/-- The virtual call native->initialize(display). -/
def Native.init (env : Env) (self : Native) (display : NativeDisplay) (t : List Call) :
    Run (Bool × Native) :=
  match self with
  | Native.x11 o =>
    match o.init env display t with
    | Run.ret r t1 => Run.ret (r.1, Native.x11 r.2) t1
    | Run.aborted t1 => Run.aborted t1
  | Native.glx o =>
    match o.init env display t with
    | Run.ret r t1 => Run.ret (r.1, Native.glx r.2) t1
    | Run.aborted t1 => Run.aborted t1
  | Native.drm o =>
    match o.init env display t with
    | Run.ret r t1 => Run.ret (r.1, Native.drm r.2) t1
    | Run.aborted t1 => Run.aborted t1
  | Native.va o =>
    match o.init display t with
    | Run.ret r t1 => Run.ret (r.1, Native.va r.2) t1
    | Run.aborted t1 => Run.aborted t1

/-- The virtual call native->getVADisplay(). -/
def Native.getVADisplay (env : Env) (self : Native) (t : List Call) : Int × List Call :=
  match self with
  | Native.x11 o => o.getVADisplay env t
  | Native.glx o => o.getVADisplay env t
  | Native.drm o => o.getVADisplay env t
  | Native.va o => o.getVADisplay t

/-- The virtual destructor, run when the last NativeDisplayPtr goes away. -/
def Native.destroy (self : Native) (t : List Call) : Run Unit :=
  match self with
  | Native.x11 o => o.destroy t
  | Native.glx o => o.destroy t
  | Native.drm o => o.destroy t
  | Native.va o => o.destroy t

/-- The request types each subclass admits in the assertion that opens its
initialize (lines 151, 182, 212, 245). -/
def Native.admits : Native → NativeDisplayType → Bool
  | Native.x11 _, ty => ty = NativeDisplayType.X11 ∨ ty = NativeDisplayType.Auto
  | Native.glx _, ty => ty = NativeDisplayType.GLX ∨ ty = NativeDisplayType.Auto
  | Native.drm _, ty => ty = NativeDisplayType.DRM ∨ ty = NativeDisplayType.Auto
  | Native.va _, ty => ty = NativeDisplayType.VA

/-! ## display_t -/

/-- The fields of display_t. -/
structure display_t where
  m_display : Int
  m_native : Native
  m_type : NativeDisplayType
  m_major : Int
  m_minor : Int
  deriving DecidableEq, Repr

/-- The switch of display_t::create, lines 254-274: the strategy object built
for the request type, or a null pointer. -/
def selectNative (b : Build) (env : Env) (ty : NativeDisplayType) (t : List Call) :
    Option Native × List Call :=
  match ty with
  | NativeDisplayType.X11 => (some (Native.x11 (NativeDisplayX11.new env t).1), (NativeDisplayX11.new env t).2)
  | NativeDisplayType.DRM => (some (Native.drm (NativeDisplayDrm.new env)), t)
  | NativeDisplayType.VA => (some (Native.va (NativeDisplayVADisplay.new env)), t)
  | NativeDisplayType.GLX =>
    if b.QT_NO_OPENGL then (none, t)
    else (some (Native.glx (NativeDisplayGLX.new env t).1), (NativeDisplayGLX.new env t).2)
  | NativeDisplayType.Auto => (none, t)

/-- Returning a null display_ptr from create while the local `native` holds the
only reference to the strategy object: the object is destroyed on the way out. -/
def returnNull (native : Native) (t : List Call) : Run (Option display_t) :=
  match native.destroy t with
  | Run.ret _ t1 => Run.ret none t1
  | Run.aborted t1 => Run.aborted t1

/-- Lines 279-288 of display_t::create, after initialize returned true.
VA_ENSURE (a macro of vaapi_helper.h) returns its second argument when the
status differs from VA_STATUS_SUCCESS. -/
def createFrom (env : Env) (display : NativeDisplay) (native : Native) (t : List Call) :
    Run (Option display_t) :=
  let va := native.getVADisplay env t
  let st := env.vaInitialize va.2 va.1
  if st.1 ≠ VA_STATUS_SUCCESS then
    returnNull native (va.2 ++ [Call.vaInitialize va.1 st.1])
  else
    Run.ret (some { m_display := va.1, m_native := native, m_type := display.type,
                    m_major := st.2.1, m_minor := st.2.2 })
      (va.2 ++ [Call.vaInitialize va.1 st.1])

/-- The factory display_t::create, lines 252-289. -/
def display_t.create (b : Build) (env : Env) (display : NativeDisplay) (t : List Call) :
    Run (Option display_t) :=
  match (selectNative b env display.type t).1 with
  | none => Run.ret none (selectNative b env display.type t).2
  | some native =>
    match native.init env display (selectNative b env display.type t).2 with
    | Run.aborted t1 => Run.aborted t1
    | Run.ret r t1 =>
      if r.1 then createFrom env display r.2 t1
      else returnNull r.2 t1

/-- Modelled from the spec: the accessor display_t::nativeDisplayType (declared
in vaapi_helper.h) reports the backend type stored by create. -/
def display_t.nativeDisplayType (self : display_t) : NativeDisplayType := self.m_type

/-- The value of init_va in the destructor, lines 295-302.  The query
OpenGLHelper::isEGL() only reads the platform and is not logged. -/
def init_va (b : Build) (env : Env) (self : display_t) (t : List Call) : Bool :=
  let q : Bool :=
    if b.QT_NO_OPENGL then false
    else env.isEGL t && decide (self.nativeDisplayType = NativeDisplayType.X11)
  if b.WORKAROUND_VATERMINATE_CRASH then true else q

/-- The body of display_t::~display_t, lines 291-312. VAWARN (a macro of
vaapi_helper.h) logs a status that is not VA_STATUS_SUCCESS and goes on. -/
def display_t.dtorBody (b : Build) (env : Env) (self : display_t) (t : List Call) :
    display_t × List Call :=
  if self.m_display = 0 then (self, t)
  else
    let t1 :=
      if init_va b env self t then
        t ++ [Call.vaInitialize self.m_display (env.vaInitialize t self.m_display).1]
      else t
    ({ self with m_display := 0 },
      t1 ++ [Call.vaTerminate self.m_display (env.vaTerminate t1 self.m_display)])

/-- Destroying a context: the destructor body, then the member m_native, whose
last reference the context holds. -/
def display_t.destroy (b : Build) (env : Env) (self : display_t) (t : List Call) : Run Unit :=
  (display_t.dtorBody b env self t).1.m_native.destroy (display_t.dtorBody b env self t).2

/-! ## Observations on logs -/

/-- Calls that acquire a native resource: XInitThreads, XOpenDisplay, open. -/
def Call.isAcquisition : Call → Bool
  | Call.XInitThreads _ => true
  | Call.XOpenDisplay _ _ => true
  | Call.sysOpen _ _ => true
  | _ => false

/-- Calls that release a native resource: XCloseDisplay, close. -/
def Call.isClose : Call → Bool
  | Call.XCloseDisplay _ => true
  | Call.sysClose _ => true
  | _ => false

/-- Calls of XOpenDisplay. -/
def Call.isXOpenDisplay : Call → Bool
  | Call.XOpenDisplay _ _ => true
  | _ => false

/-- Calls of vaInitialize. -/
def Call.isVaInitialize : Call → Bool
  | Call.vaInitialize _ _ => true
  | _ => false

/-- Number of release calls (XCloseDisplay, close) in a log. -/
def closeCount (l : List Call) : Nat := (l.filter Call.isClose).length

/-- Whether the close primitive the object would use is callable: XCloseDisplay
resolved for the X11 and GLX subclasses; close(2) is always there. -/
def Native.closeReady : Native → Bool
  | Native.x11 o => o.x11.fp_XCloseDisplay
  | Native.glx o => o.x11.fp_XCloseDisplay
  | Native.drm _ => true
  | Native.va _ => true

/-- Whether the object is a DRM strategy holding descriptor 0. -/
def Native.holdsDescriptorZero : Native → Bool
  | Native.drm o => decide (o.base.m_handle = 0)
  | _ => false

/-! ## Sample environments -/

/-- A machine on which every library loads, every symbol resolves, X opens the
display 4096, both device nodes open as descriptor 3, and libva accepts every
display but the null one (status 3 is VA_STATUS_ERROR_INVALID_DISPLAY). -/
def Env.live : Env :=
  { load := fun _ _ _ => true
    resolve := fun _ _ => true
    XInitThreads := fun _ => 1
    XOpenDisplay := fun _ _ => 4096
    sysOpen := fun _ _ => some 3
    isLoadedX11 := true
    isLoadedGLX := true
    isLoadedDRM := true
    vaGetDisplay := fun _ _ => 8192
    vaGetDisplayGLX := fun _ _ => 8192
    vaGetDisplayDRM := fun _ _ => 8192
    isEGL := fun _ => true
    vaInitialize := fun _ dpy => if dpy = 0 then (3, 0, 0) else (0, 1, 4)
    vaTerminate := fun _ _ => 0
    indeterminate := false }

/-- A machine without libX11, without the libva interop libraries and without
DRM device nodes. -/
def Env.dead : Env :=
  { Env.live with
    load := fun _ _ _ => false
    resolve := fun _ _ => false
    XInitThreads := fun _ => 0
    XOpenDisplay := fun _ _ => 0
    sysOpen := fun _ _ => none
    isLoadedX11 := false
    isLoadedGLX := false
    isLoadedDRM := false }

/-- The live machine without a render node: only /dev/dri/card0 opens, as
descriptor 5. -/
def Env.cardOnly : Env :=
  { Env.live with
    sysOpen := fun _ path => if path = "/dev/dri/card0" then some 5 else none }

/-- The live machine in a process whose descriptor 0 is closed: open hands out
the lowest free descriptor, which is 0. -/
def Env.stdinClosed : Env :=
  { Env.live with sysOpen := fun _ _ => some 0 }

/-- The build with QT_NO_OPENGL defined and without the vaTerminate workaround. -/
def Build.noOpenGL : Build := { QT_NO_OPENGL := true, WORKAROUND_VATERMINATE_CRASH := false }

/-- An X11 context as create builds it on the live machine: display 8192 derived
from the self-opened X display 4096. -/
def display_t.sampleX11 : display_t :=
  { m_display := 8192
    m_native := Native.x11
      { base := { m_handle := 4096, m_selfCreated := true }
        x11 := (X11_API.new Env.live []).1 }
    m_type := NativeDisplayType.X11
    m_major := 1
    m_minor := 4 }

/-- The build with OpenGL support and without the vaTerminate workaround. -/
def Build.default : Build := { QT_NO_OPENGL := false, WORKAROUND_VATERMINATE_CRASH := false }

/-! ## Theorems -/

/-- C8: the constructor of dll_helper. With a non-negative version it first
tries the version-qualified name and, only when that load fails, tries the
unqualified name once more; with a negative version it makes one attempt, with
the unqualified name. The library ends up loaded exactly when one of the
attempts made succeeded. -/
theorem dll_helper_new_attempts (env : Env) (soname : String) (version : Int) (t : List Call) :
    (dll_helper.new env soname version t).2 =
        t ++ (if 0 ≤ version then
                if env.load t soname (some version) then
                  [Call.libLoad soname (some version) true]
                else
                  [Call.libLoad soname (some version) false,
                   Call.libLoad soname none
                     (env.load (t ++ [Call.libLoad soname (some version) false]) soname none)]
              else [Call.libLoad soname none (env.load t soname none)])
      ∧ ((dll_helper.new env soname version t).1.isLoaded = true ↔
          ∃ f v, Call.libLoad f v true ∈ (dll_helper.new env soname version t).2.drop t.length) := by
  by_cases hv : 0 ≤ version
  · by_cases h1 : env.load t soname (some version) = true
    · simp [dll_helper.new, QLibrary.load, dll_helper.isLoaded, hv, h1]
    · simp only [Bool.not_eq_true] at h1
      by_cases h2 : env.load (t ++ [Call.libLoad soname (some version) false]) soname none = true
      · simp [dll_helper.new, QLibrary.load, dll_helper.isLoaded, hv, h1, h2]
      · simp only [Bool.not_eq_true] at h2
        simp [dll_helper.new, QLibrary.load, dll_helper.isLoaded, hv, h1, h2]
  · by_cases h1 : env.load t soname none = true
    · simp [dll_helper.new, QLibrary.load, dll_helper.isLoaded, hv, h1]
    · simp only [Bool.not_eq_true] at h1
      simp [dll_helper.new, QLibrary.load, dll_helper.isLoaded, hv, h1]

/-- C10: create with request type Auto returns null for every handle, every
build and every environment, and leaves the log as it found it: no strategy
object is built, nothing is acquired and vaInitialize is not called. Yet the
initialize of the X11, GLX and DRM subclasses passes its type assertion on an
Auto request (shown on one carrying the external handle 1). -/
theorem create_Auto_null (b : Build) (env : Env) (handle : Int) (t : List Call) :
    display_t.create b env { handle := handle, type := NativeDisplayType.Auto } t = Run.ret none t
      ∧ (selectNative b env NativeDisplayType.Auto t).1 = none
      ∧ (∀ o : NativeDisplayX11,
          o.init env { handle := 1, type := NativeDisplayType.Auto } t
            = Run.ret (true, { o with base := { m_handle := 1, m_selfCreated := false } }) t)
      ∧ (∀ o : NativeDisplayGLX,
          o.init env { handle := 1, type := NativeDisplayType.Auto } t
            = Run.ret (true, { o with base := { m_handle := 1, m_selfCreated := false } }) t)
      ∧ (∀ o : NativeDisplayDrm,
          o.init env { handle := 1, type := NativeDisplayType.Auto } t
            = Run.ret (true, { base := { m_handle := 1, m_selfCreated := false } }) t) := by
  refine ⟨rfl, rfl, ?_, ?_, ?_⟩
  · intro o
    simp [NativeDisplayX11.init, NativeDisplayBase.acceptValidExternalHandle]
  · intro o
    simp [NativeDisplayGLX.init, NativeDisplayBase.acceptValidExternalHandle]
  · intro o
    simp [NativeDisplayDrm.init, NativeDisplayBase.acceptValidExternalHandle]

/-- C2: for the VA-direct backend (a request of type VA), initialize returns
true exactly when the request carries a valid external handle, and it always
returns; and create on a VA request whose handle is 0 or -1 returns null in
every build and environment with the log untouched, so vaInitialize is not
called. -/
theorem va_direct_needs_external_handle (self : NativeDisplayVADisplay) (display : NativeDisplay)
    (t : List Call) (hty : display.type = NativeDisplayType.VA) :
    (∃ ok o, self.init display t = Run.ret (ok, o) t
        ∧ (ok = true ↔ (display.handle ≠ 0 ∧ display.handle ≠ -1)))
      ∧ ∀ (b : Build) (env : Env), (display.handle = 0 ∨ display.handle = -1) →
          display_t.create b env display t = Run.ret none t
            ∧ ∀ c ∈ (display_t.create b env display t).log, c ∉ t → c.isVaInitialize = false := by
  obtain ⟨handle, type⟩ := display
  simp only at hty
  subst hty
  constructor
  · by_cases hv : handle ≠ 0 ∧ handle ≠ -1
    · exact ⟨true, { base := { m_handle := handle, m_selfCreated := false } },
        by simp [NativeDisplayVADisplay.init, NativeDisplayBase.acceptValidExternalHandle, hv],
        by simp [hv]⟩
    · refine ⟨false, self, ?_, by simp [hv]⟩
      simp only [NativeDisplayVADisplay.init, NativeDisplayBase.acceptValidExternalHandle, hv]
      simp
  · intro b env hh
    have hc : display_t.create b env { handle := handle, type := NativeDisplayType.VA } t
        = Run.ret none t := by
      rcases hh with h0 | h1
      · subst h0
        simp [display_t.create, selectNative, Native.init, NativeDisplayVADisplay.init,
          NativeDisplayBase.acceptValidExternalHandle, returnNull, Native.destroy,
          NativeDisplayVADisplay.destroy]
      · subst h1
        simp [display_t.create, selectNative, Native.init, NativeDisplayVADisplay.init,
          NativeDisplayBase.acceptValidExternalHandle, returnNull, Native.destroy,
          NativeDisplayVADisplay.destroy]
    refine ⟨hc, ?_⟩
    intro c hc1 hc2
    rw [hc] at hc1
    exact absurd hc1 hc2

/-- Witness for C2: the VA request with handle 0 on a fresh object, in the
default build on the live machine. -/
theorem va_direct_needs_external_handle_witness :
    (({ handle := 0, type := NativeDisplayType.VA } : NativeDisplay).type = NativeDisplayType.VA)
      ∧ display_t.create Build.default Env.live { handle := 0, type := NativeDisplayType.VA } []
          = Run.ret none [] :=
  ⟨rfl, ((va_direct_needs_external_handle (NativeDisplayVADisplay.new Env.live)
      { handle := 0, type := NativeDisplayType.VA } [] rfl).2 Build.default Env.live
        (Or.inl rfl)).1⟩

/-- The switch of create builds, for a request type, only an object whose
initialize admits that type. -/
theorem selectNative_admits (b : Build) (env : Env) (ty : NativeDisplayType) (t : List Call)
    (o : Native) (hsel : (selectNative b env ty t).1 = some o) : o.admits ty = true := by
  cases ty <;> simp only [selectNative] at hsel
  · simp only [Option.some.injEq] at hsel
    subst hsel
    simp [Native.admits]
  · by_cases hg : b.QT_NO_OPENGL = true
    · simp [hg] at hsel
    · simp only [hg, Bool.false_eq_true, if_false, Option.some.injEq] at hsel
      subst hsel
      simp [Native.admits]
  · simp only [Option.some.injEq] at hsel
    subst hsel
    simp [Native.admits]
  · simp only [Option.some.injEq] at hsel
    subst hsel
    simp [Native.admits]
  · simp at hsel

/-- C1: for each of the four subclasses and every request whose handle is a
valid external handle (neither 0 nor -1), initialize returns true, stores
exactly the request handle, sets m_selfCreated to false and makes no external
call at all: the log is unchanged, so there is no XInitThreads, no XOpenDisplay
and no open of a device path. This holds on every object whose subclass admits
the request type, fresh or not; and the fresh object that create builds for a
request always admits its type, in every build, so it holds on every request
that create hands to initialize. -/
theorem init_accepts_valid_external_handle (env : Env) (display : NativeDisplay)
    (t : List Call) (h0 : display.handle ≠ 0) (h1 : display.handle ≠ -1) :
    (∀ o : Native, o.admits display.type = true →
        o.init env display t =
          Run.ret (true, o.withBase { m_handle := display.handle, m_selfCreated := false }) t)
      ∧ (∀ (b : Build) (o : Native), (selectNative b env display.type t).1 = some o →
          o.admits display.type = true
            ∧ o.init env display (selectNative b env display.type t).2 =
                Run.ret (true, o.withBase { m_handle := display.handle, m_selfCreated := false })
                  (selectNative b env display.type t).2) := by
  have key : ∀ (o : Native) (t0 : List Call), o.admits display.type = true →
      o.init env display t0 =
        Run.ret (true, o.withBase { m_handle := display.handle, m_selfCreated := false }) t0 := by
    intro o t0 hadm
    obtain ⟨handle, type⟩ := display
    simp only at h0 h1
    cases o <;> cases type <;>
      simp_all [Native.init, Native.admits, Native.withBase, NativeDisplayX11.init,
        NativeDisplayGLX.init, NativeDisplayDrm.init, NativeDisplayVADisplay.init,
        NativeDisplayBase.acceptValidExternalHandle]
  refine ⟨fun o hadm => key o t hadm, ?_⟩
  intro b o hsel
  have hadm := selectNative_admits b env display.type t o hsel
  exact ⟨hadm, key o _ hadm⟩

/-- Witness for C1: the fresh DRM object that create builds for a DRM request
adopts the external handle 42 of that request. -/
theorem init_accepts_valid_external_handle_witness :
    ((42 : Int) ≠ 0) ∧ ((42 : Int) ≠ -1)
      ∧ (selectNative Build.default Env.live NativeDisplayType.DRM []).1
          = some (Native.drm (NativeDisplayDrm.new Env.live))
      ∧ (Native.drm (NativeDisplayDrm.new Env.live)).init Env.live
          { handle := 42, type := NativeDisplayType.DRM } []
        = Run.ret (true, Native.drm { base := { m_handle := 42, m_selfCreated := false } }) [] :=
  ⟨by decide, by decide, rfl,
    ((init_accepts_valid_external_handle Env.live { handle := 42, type := NativeDisplayType.DRM } []
        (by decide) (by decide)).2 Build.default (Native.drm (NativeDisplayDrm.new Env.live))
          rfl).2⟩

/-- The value open(2) returns for a descriptor is not negative. -/
theorem openRet_some_nonneg (fd : Nat) : ¬ openRet (some fd) < 0 := by
  simp [openRet]

/-- The value open(2) returns for a descriptor is not -1. -/
theorem openRet_some_ne (fd : Nat) : openRet (some fd) ≠ -1 := by
  simp only [openRet]
  omega

/-- C3: the DRM subclass, given a request it admits and that carries no
external handle, probes /dev/dri/renderD128 first and /dev/dri/card0 second and
stops at the first open that succeeds. If renderD128 opens, its descriptor is
the handle and card0 is not opened; if only card0 opens, its descriptor is the
handle; in both cases m_selfCreated is true. If neither opens, initialize
returns false. In every case initialize returns, and it returns true exactly
when one of the opens it made yielded a non-negative descriptor. -/
theorem drm_init_probe_order (env : Env) (self : NativeDisplayDrm) (display : NativeDisplay)
    (t : List Call)
    (hty : display.type = NativeDisplayType.DRM ∨ display.type = NativeDisplayType.Auto)
    (hh : display.handle = 0 ∨ display.handle = -1) :
    (∀ fd : Nat, env.sysOpen t "/dev/dri/renderD128" = some fd →
        self.init env display t =
          Run.ret (true, { base := { m_handle := fd, m_selfCreated := true } })
            (t ++ [Call.sysOpen "/dev/dri/renderD128" fd]))
      ∧ (env.sysOpen t "/dev/dri/renderD128" = none →
          ∀ fd : Nat,
            env.sysOpen (t ++ [Call.sysOpen "/dev/dri/renderD128" (-1)]) "/dev/dri/card0" = some fd →
            self.init env display t =
              Run.ret (true, { base := { m_handle := fd, m_selfCreated := true } })
                (t ++ [Call.sysOpen "/dev/dri/renderD128" (-1), Call.sysOpen "/dev/dri/card0" fd]))
      ∧ (env.sysOpen t "/dev/dri/renderD128" = none →
          env.sysOpen (t ++ [Call.sysOpen "/dev/dri/renderD128" (-1)]) "/dev/dri/card0" = none →
            self.init env display t =
              Run.ret (false, { base := { m_handle := -1, m_selfCreated := true } })
                (t ++ [Call.sysOpen "/dev/dri/renderD128" (-1),
                       Call.sysOpen "/dev/dri/card0" (-1)]))
      ∧ (∃ ok o t1, self.init env display t = Run.ret (ok, o) t1
          ∧ (ok = true ↔ ∃ dev fd, Call.sysOpen dev fd ∈ t1.drop t.length ∧ 0 ≤ fd)) := by
  have hacc : (self.base.acceptValidExternalHandle display).1 = false := by
    rcases hh with h | h <;> simp [NativeDisplayBase.acceptValidExternalHandle, h]
  have hty1 : (display.type = NativeDisplayType.DRM ∨ display.type = NativeDisplayType.Auto)
      = True := eq_true hty
  have A : ∀ fd : Nat, env.sysOpen t "/dev/dri/renderD128" = some fd →
      self.init env display t =
        Run.ret (true, { base := { m_handle := fd, m_selfCreated := true } })
          (t ++ [Call.sysOpen "/dev/dri/renderD128" fd]) := by
    intro fd h1
    have hn := openRet_some_nonneg fd
    have hm := openRet_some_ne fd
    simp only [NativeDisplayDrm.init, hty1, hacc, drm_dev, drmProbe, h1, hn, if_true, if_false]
    simp [hm, openRet]
  have B : env.sysOpen t "/dev/dri/renderD128" = none →
      ∀ fd : Nat,
        env.sysOpen (t ++ [Call.sysOpen "/dev/dri/renderD128" (-1)]) "/dev/dri/card0" = some fd →
        self.init env display t =
          Run.ret (true, { base := { m_handle := fd, m_selfCreated := true } })
            (t ++ [Call.sysOpen "/dev/dri/renderD128" (-1), Call.sysOpen "/dev/dri/card0" fd]) := by
    intro h1 fd h2
    have hn := openRet_some_nonneg fd
    have hm := openRet_some_ne fd
    have hneg : openRet none < 0 := by simp [openRet]
    have h2a : env.sysOpen (t ++ [Call.sysOpen "/dev/dri/renderD128" (openRet none)])
        "/dev/dri/card0" = some fd := h2
    simp only [NativeDisplayDrm.init, hty1, hacc, drm_dev, drmProbe, h1, h2a, hn, hneg, if_true,
      if_false]
    simp [hm, openRet]
  have C : env.sysOpen t "/dev/dri/renderD128" = none →
      env.sysOpen (t ++ [Call.sysOpen "/dev/dri/renderD128" (-1)]) "/dev/dri/card0" = none →
        self.init env display t =
          Run.ret (false, { base := { m_handle := -1, m_selfCreated := true } })
            (t ++ [Call.sysOpen "/dev/dri/renderD128" (-1),
                   Call.sysOpen "/dev/dri/card0" (-1)]) := by
    intro h1 h2
    have hneg : openRet none < 0 := by simp [openRet]
    have h2a : env.sysOpen (t ++ [Call.sysOpen "/dev/dri/renderD128" (openRet none)])
        "/dev/dri/card0" = none := h2
    simp only [NativeDisplayDrm.init, hty1, hacc, drm_dev, drmProbe, h1, h2a, hneg, if_true,
      if_false]
    simp [openRet]
  refine ⟨A, B, C, ?_⟩
  cases h1 : env.sysOpen t "/dev/dri/renderD128" with
  | some fd =>
    refine ⟨_, _, _, A fd h1, ?_⟩
    simp only [true_iff]
    exact ⟨"/dev/dri/renderD128", fd, by simp, by omega⟩
  | none =>
    cases h2 : env.sysOpen (t ++ [Call.sysOpen "/dev/dri/renderD128" (-1)]) "/dev/dri/card0" with
    | some fd =>
      refine ⟨_, _, _, B h1 fd h2, ?_⟩
      simp only [true_iff]
      exact ⟨"/dev/dri/card0", fd, by simp, by omega⟩
    | none =>
      refine ⟨_, _, _, C h1 h2, ?_⟩
      simp only [List.drop_left, List.mem_cons, Call.sysOpen.injEq, List.mem_nil_iff, or_false,
        Bool.false_eq_true, false_iff, not_exists, not_and, not_le]
      intro dev fd h
      rcases h with ⟨_, h⟩ | ⟨_, h⟩ <;> omega

/-- Witness for C3: a machine where only /dev/dri/card0 opens (as descriptor
5); the DRM subclass ends with handle 5 and m_selfCreated true. -/
theorem drm_init_probe_order_witness :
    (({ handle := 0, type := NativeDisplayType.DRM } : NativeDisplay).type = NativeDisplayType.DRM)
      ∧ (NativeDisplayDrm.new Env.cardOnly).init Env.cardOnly
          { handle := 0, type := NativeDisplayType.DRM } []
        = Run.ret (true, { base := { m_handle := 5, m_selfCreated := true } })
            [Call.sysOpen "/dev/dri/renderD128" (-1), Call.sysOpen "/dev/dri/card0" 5] :=
  ⟨rfl, (drm_init_probe_order Env.cardOnly (NativeDisplayDrm.new Env.cardOnly)
      { handle := 0, type := NativeDisplayType.DRM } [] (Or.inl rfl) (Or.inl rfl)).2.1
        (by decide) 5 (by decide)⟩

/-- C9: the X11 subclass and the GLX subclass alike, given a request they admit
that carries no valid external handle, with XInitThreads and XOpenDisplay
resolved. If XInitThreads returns 0, initialize returns false after that one
call, so XOpenDisplay is not called. Otherwise XOpenDisplay is called once, with
a null name; what it returns is stored as the handle (with m_selfCreated true),
and initialize returns true exactly when that handle is not null. -/
theorem x11_glx_init_acquisition (env : Env) (display : NativeDisplay) (t : List Call)
    (hh : display.handle = 0 ∨ display.handle = -1) :
    (∀ self : NativeDisplayX11,
        (display.type = NativeDisplayType.X11 ∨ display.type = NativeDisplayType.Auto) →
        self.x11.fp_XInitThreads = true → self.x11.fp_XOpenDisplay = true →
        self.init env display t =
          if env.XInitThreads t = 0 then
            Run.ret (false, self) (t ++ [Call.XInitThreads 0])
          else
            Run.ret
              (decide (env.XOpenDisplay (t ++ [Call.XInitThreads (env.XInitThreads t)]) none ≠ 0),
                { self with base :=
                    { m_handle :=
                        env.XOpenDisplay (t ++ [Call.XInitThreads (env.XInitThreads t)]) none,
                      m_selfCreated := true } })
              (t ++ [Call.XInitThreads (env.XInitThreads t),
                     Call.XOpenDisplay none
                       (env.XOpenDisplay (t ++ [Call.XInitThreads (env.XInitThreads t)]) none)]))
      ∧ (∀ self : NativeDisplayGLX,
        (display.type = NativeDisplayType.GLX ∨ display.type = NativeDisplayType.Auto) →
        self.x11.fp_XInitThreads = true → self.x11.fp_XOpenDisplay = true →
        self.init env display t =
          if env.XInitThreads t = 0 then
            Run.ret (false, self) (t ++ [Call.XInitThreads 0])
          else
            Run.ret
              (decide (env.XOpenDisplay (t ++ [Call.XInitThreads (env.XInitThreads t)]) none ≠ 0),
                { self with base :=
                    { m_handle :=
                        env.XOpenDisplay (t ++ [Call.XInitThreads (env.XInitThreads t)]) none,
                      m_selfCreated := true } })
              (t ++ [Call.XInitThreads (env.XInitThreads t),
                     Call.XOpenDisplay none
                       (env.XOpenDisplay (t ++ [Call.XInitThreads (env.XInitThreads t)]) none)])) := by
  constructor
  · intro self hty hi ho
    have hacc : (self.base.acceptValidExternalHandle display).1 = false := by
      rcases hh with h | h <;> simp [NativeDisplayBase.acceptValidExternalHandle, h]
    by_cases h0 : env.XInitThreads t = 0
    · simp [NativeDisplayX11.init, hty, hacc, X11_API.XInitThreads, hi, h0]
    · simp [NativeDisplayX11.init, hty, hacc, X11_API.XInitThreads, X11_API.XOpenDisplay, hi, ho,
        h0]
  · intro self hty hi ho
    have hacc : (self.base.acceptValidExternalHandle display).1 = false := by
      rcases hh with h | h <;> simp [NativeDisplayBase.acceptValidExternalHandle, h]
    by_cases h0 : env.XInitThreads t = 0
    · simp [NativeDisplayGLX.init, hty, hacc, X11_API.XInitThreads, hi, h0]
    · simp [NativeDisplayGLX.init, hty, hacc, X11_API.XInitThreads, X11_API.XOpenDisplay, hi, ho,
        h0]

/-- Witness for C9: a fresh X11 object on the live machine, where XInitThreads
returns 1 and XOpenDisplay returns the display 4096. -/
theorem x11_glx_init_acquisition_witness :
    ((0 : Int) = 0 ∨ (0 : Int) = -1)
      ∧ (NativeDisplayX11.new Env.live []).1.x11.fp_XInitThreads = true
      ∧ (NativeDisplayX11.new Env.live []).1.x11.fp_XOpenDisplay = true
      ∧ (NativeDisplayX11.new Env.live []).1.init Env.live
          { handle := 0, type := NativeDisplayType.X11 } []
        = Run.ret
            (true,
              { (NativeDisplayX11.new Env.live []).1 with
                base := { m_handle := 4096, m_selfCreated := true } })
            [Call.XInitThreads 1, Call.XOpenDisplay none 4096] :=
  ⟨Or.inl rfl, rfl, rfl,
    ((x11_glx_init_acquisition Env.live { handle := 0, type := NativeDisplayType.X11 } []
        (Or.inl rfl)).1 (NativeDisplayX11.new Env.live []).1 (Or.inl rfl) rfl rfl)⟩

/-- Counterexample for C5: in the build with QT_NO_OPENGL defined and the
workaround flag absent, on the live machine (where the EGL query answers true),
create on an X11 request yields the sample X11 context, and its destructor
calls vaTerminate only: no vaInitialize comes before it. -/
theorem dtor_without_opengl_only_terminates :
    Build.noOpenGL.WORKAROUND_VATERMINATE_CRASH = false
      ∧ (∃ log, display_t.create Build.noOpenGL Env.live
            { handle := 0, type := NativeDisplayType.X11 } [] = Run.ret (some display_t.sampleX11) log)
      ∧ Env.live.isEGL [] = true
      ∧ display_t.sampleX11.nativeDisplayType = NativeDisplayType.X11
      ∧ display_t.sampleX11.m_display ≠ 0
      ∧ display_t.dtorBody Build.noOpenGL Env.live display_t.sampleX11 []
          = ({ display_t.sampleX11 with m_display := 0 }, [Call.vaTerminate 8192 0]) := by
  refine ⟨rfl, ⟨_, rfl⟩, rfl, rfl, by decide, rfl⟩

/-- C5, amended: the destructor body with the workaround flag absent. A null
stored display means no call and no change. Otherwise, when OpenGL support is
compiled in (QT_NO_OPENGL undefined), the EGL query is true and the backend type
is X11, the calls are one vaInitialize on the display followed by one
vaTerminate on it; in every other case, which includes every build with
QT_NO_OPENGL defined, the only call is one vaTerminate. The stored display is
null afterwards, whatever statuses the two calls return. -/
theorem dtor_runtime_calls (b : Build) (env : Env) (self : display_t) (t : List Call)
    (hw : b.WORKAROUND_VATERMINATE_CRASH = false) :
    display_t.dtorBody b env self t =
      if self.m_display = 0 then (self, t)
      else if b.QT_NO_OPENGL = false ∧ env.isEGL t = true
          ∧ self.nativeDisplayType = NativeDisplayType.X11 then
        ({ self with m_display := 0 },
          t ++ [Call.vaInitialize self.m_display (env.vaInitialize t self.m_display).1,
                Call.vaTerminate self.m_display
                  (env.vaTerminate
                    (t ++ [Call.vaInitialize self.m_display (env.vaInitialize t self.m_display).1])
                    self.m_display)])
      else
        ({ self with m_display := 0 },
          t ++ [Call.vaTerminate self.m_display (env.vaTerminate t self.m_display)]) := by
  by_cases hd : self.m_display = 0
  · simp [display_t.dtorBody, hd]
  · by_cases hg : b.QT_NO_OPENGL = true
    · simp [display_t.dtorBody, init_va, hd, hw, hg]
    · simp only [Bool.not_eq_true] at hg
      by_cases he : env.isEGL t = true
      · by_cases hx : self.nativeDisplayType = NativeDisplayType.X11
        · simp [display_t.dtorBody, init_va, hd, hw, hg, he, hx]
        · simp [display_t.dtorBody, init_va, hd, hw, hg, he, hx]
      · simp only [Bool.not_eq_true] at he
        simp [display_t.dtorBody, init_va, hd, hw, hg, he]

/-- Witness for C5, amended: the sample X11 context in the default build on the
live machine is re-initialised and then terminated. -/
theorem dtor_runtime_calls_witness :
    Build.default.WORKAROUND_VATERMINATE_CRASH = false
      ∧ display_t.dtorBody Build.default Env.live display_t.sampleX11 []
          = ({ display_t.sampleX11 with m_display := 0 },
              [Call.vaInitialize 8192 0, Call.vaTerminate 8192 0]) :=
  ⟨rfl, dtor_runtime_calls Build.default Env.live display_t.sampleX11 [] rfl⟩

/-- Leaving create with a null pointer never yields a context. -/
theorem returnNull_ne_some (native : Native) (t t1 : List Call) (d : display_t) :
    returnNull native t ≠ Run.ret (some d) t1 := by
  unfold returnNull
  cases native.destroy t <;> simp

/-- A context that comes out of lines 279-288 holds what getVADisplay returned,
and vaInitialize reported success on it as the last call. -/
theorem createFrom_some (env : Env) (display : NativeDisplay) (native : Native)
    (t t1 : List Call) (d : display_t)
    (hc : createFrom env display native t = Run.ret (some d) t1) :
    d.m_display = (native.getVADisplay env t).1
      ∧ d.m_native = native
      ∧ (env.vaInitialize (native.getVADisplay env t).2 d.m_display).1 = VA_STATUS_SUCCESS
      ∧ t1 = (native.getVADisplay env t).2 ++ [Call.vaInitialize d.m_display VA_STATUS_SUCCESS] := by
  unfold createFrom at hc
  by_cases hs : (env.vaInitialize (native.getVADisplay env t).2 (native.getVADisplay env t).1).1
      = VA_STATUS_SUCCESS
  · simp only [hs, ne_eq, not_true_eq_false, if_false, Run.ret.injEq, Option.some.injEq] at hc
    obtain ⟨hd, ht⟩ := hc
    subst hd
    exact ⟨rfl, rfl, hs, ht.symm⟩
  · simp only [ne_eq, hs, not_false_eq_true, if_true] at hc
    exact absurd hc (returnNull_ne_some _ _ _ _)

/-- An X11 request without a valid external handle (0, the null handle, or -1),
in any build and any environment where libX11 fails to load: none of the three
symbols resolves and create does not return; the run ends on the assertion of
the XInitThreads wrapper, right after the two load attempts and the three
resolutions. XOpenDisplay is never invoked. -/
theorem create_x11_library_missing (b : Build) (env : Env) (handle : Int) (t : List Call)
    (hload : ∀ t0 v, env.load t0 "X11" v = false)
    (hh : handle = 0 ∨ handle = -1) :
    display_t.create b env { handle := handle, type := NativeDisplayType.X11 } t
        = Run.aborted
            (t ++ [Call.libLoad "X11" (some 6) false, Call.libLoad "X11" none false,
                   Call.libResolve "XOpenDisplay" false, Call.libResolve "XCloseDisplay" false,
                   Call.libResolve "XInitThreads" false])
      ∧ ∀ c ∈ (display_t.create b env { handle := handle, type := NativeDisplayType.X11 } t).log,
          c ∉ t → c.isXOpenDisplay = false := by
  have hc : display_t.create b env { handle := handle, type := NativeDisplayType.X11 } t
        = Run.aborted
            (t ++ [Call.libLoad "X11" (some 6) false, Call.libLoad "X11" none false,
                   Call.libResolve "XOpenDisplay" false, Call.libResolve "XCloseDisplay" false,
                   Call.libResolve "XInitThreads" false]) := by
    rcases hh with h | h <;> subst h <;>
      simp [display_t.create, selectNative, NativeDisplayX11.new, X11_API.new, dll_helper.new,
        QLibrary.load, dll_helper.resolve, hload, Native.init, NativeDisplayX11.init,
        NativeDisplayBase.acceptValidExternalHandle, NativeDisplayBase.new, X11_API.XInitThreads]
  refine ⟨hc, ?_⟩
  intro c hmem hnot
  rw [hc] at hmem
  simp only [Run.log, List.mem_append, List.mem_cons, List.mem_nil_iff, or_false] at hmem
  rcases hmem with h | h | h | h | h | h
  · exact absurd h hnot
  all_goals subst h; rfl

/-- C7 at the failing input: on the machine without libX11 (both load attempts
fail, so none of the three symbols resolves), create on the X11 request with a
null handle does not return null: the run ends on the assertion of the
XInitThreads wrapper (line 112), which initialize reaches without having
checked that the library is loaded. XOpenDisplay is not invoked. -/
theorem create_x11_without_library_aborts :
    (X11_API.new Env.dead []).1
        = { lib := { m_lib := { fileName := "X11", version := none, loaded := false } }
            fp_XOpenDisplay := false
            fp_XCloseDisplay := false
            fp_XInitThreads := false }
      ∧ display_t.create Build.default Env.dead { handle := 0, type := NativeDisplayType.X11 } []
        = Run.aborted
            [Call.libLoad "X11" (some 6) false, Call.libLoad "X11" none false,
             Call.libResolve "XOpenDisplay" false, Call.libResolve "XCloseDisplay" false,
             Call.libResolve "XInitThreads" false]
      ∧ (∀ c ∈ (display_t.create Build.default Env.dead
                  { handle := 0, type := NativeDisplayType.X11 } []).log,
            c.isXOpenDisplay = false) := by
  refine ⟨rfl, rfl, ?_⟩
  intro c hc
  exact (create_x11_library_missing Build.default Env.dead 0 [] (fun _ _ => rfl) (Or.inl rfl)).2
    c hc (List.not_mem_nil c)

/-- C4 at the failing input: in a process whose descriptor 0 is closed, create
on a DRM request without external handle succeeds with the self-opened
descriptor 0 (m_selfCreated is true), and destroying the returned context
terminates libva but makes no close call: the descriptor stays open. On the
live machine, where the same request opens descriptor 3, destroying the context
closes it once. -/
theorem drm_descriptor_zero_never_closed :
    display_t.create Build.default Env.stdinClosed { handle := 0, type := NativeDisplayType.DRM } []
        = Run.ret
            (some { m_display := 8192
                    m_native := Native.drm { base := { m_handle := 0, m_selfCreated := true } }
                    m_type := NativeDisplayType.DRM
                    m_major := 1
                    m_minor := 4 })
            [Call.sysOpen "/dev/dri/renderD128" 0, Call.vaGetDisplayDRM 0 8192,
             Call.vaInitialize 8192 0]
      ∧ display_t.destroy Build.default Env.stdinClosed
            { m_display := 8192
              m_native := Native.drm { base := { m_handle := 0, m_selfCreated := true } }
              m_type := NativeDisplayType.DRM
              m_major := 1
              m_minor := 4 }
            [Call.sysOpen "/dev/dri/renderD128" 0, Call.vaGetDisplayDRM 0 8192,
             Call.vaInitialize 8192 0]
        = Run.ret ()
            [Call.sysOpen "/dev/dri/renderD128" 0, Call.vaGetDisplayDRM 0 8192,
             Call.vaInitialize 8192 0, Call.vaTerminate 8192 0]
      ∧ ([Call.sysOpen "/dev/dri/renderD128" 0, Call.vaGetDisplayDRM 0 8192,
          Call.vaInitialize 8192 0, Call.vaTerminate 8192 0].filter Call.isClose).length = 0
      ∧ display_t.destroy Build.default Env.live
            { m_display := 8192
              m_native := Native.drm { base := { m_handle := 3, m_selfCreated := true } }
              m_type := NativeDisplayType.DRM
              m_major := 1
              m_minor := 4 }
            [Call.sysOpen "/dev/dri/renderD128" 3, Call.vaGetDisplayDRM 3 8192,
             Call.vaInitialize 8192 0]
        = Run.ret ()
            [Call.sysOpen "/dev/dri/renderD128" 3, Call.vaGetDisplayDRM 3 8192,
             Call.vaInitialize 8192 0, Call.vaTerminate 8192 0, Call.sysClose 3] := by
  refine ⟨rfl, rfl, rfl, rfl⟩

/-- The destructor body makes libva calls only and leaves m_native alone. -/
theorem dtorBody_keeps_native (b : Build) (env : Env) (d : display_t) (t : List Call) :
    (display_t.dtorBody b env d t).1.m_native = d.m_native
      ∧ closeCount (display_t.dtorBody b env d t).2 = closeCount t := by
  unfold display_t.dtorBody
  by_cases hd : d.m_display = 0
  · simp [hd]
  · by_cases hi : init_va b env d t = true
    · simp [hd, hi, closeCount, List.filter_append, Call.isClose]
    · simp [hd, hi, closeCount, List.filter_append, Call.isClose]

/-- An adopted external handle is never marked self-created. -/
theorem accept_true_not_selfCreated (self : NativeDisplayBase) (display : NativeDisplay)
    (ha : (self.acceptValidExternalHandle display).1 = true) :
    (self.acceptValidExternalHandle display).2.m_selfCreated = false := by
  unfold NativeDisplayBase.acceptValidExternalHandle at ha ⊢
  by_cases hv : display.handle ≠ 0 ∧ display.handle ≠ -1
  · simp [hv]
  · simp [hv] at ha

/-- When the X11 initialize returns true with a self-created handle, the handle
is not null. -/
theorem x11_init_true_handle (env : Env) (x y : NativeDisplayX11) (display : NativeDisplay)
    (t t1 : List Call) (hi : x.init env display t = Run.ret (true, y) t1)
    (hs : y.base.m_selfCreated = true) : y.base.m_handle ≠ 0 := by
  unfold NativeDisplayX11.init at hi
  by_cases hty : display.type = NativeDisplayType.X11 ∨ display.type = NativeDisplayType.Auto
  · rw [if_pos hty] at hi
    by_cases ha : (x.base.acceptValidExternalHandle display).1 = true
    · rw [if_pos ha] at hi
      simp only [Run.ret.injEq, Prod.mk.injEq, true_and] at hi
      obtain ⟨hy, -⟩ := hi
      subst hy
      have := accept_true_not_selfCreated x.base display ha
      simp [this] at hs
    · rw [if_neg ha] at hi
      unfold X11_API.XInitThreads at hi
      by_cases h1 : x.x11.fp_XInitThreads = true
      · simp only [h1, if_true] at hi
        by_cases h0 : env.XInitThreads t = 0
        · simp [h0] at hi
        · simp only [h0, if_false] at hi
          unfold X11_API.XOpenDisplay at hi
          by_cases h2 : x.x11.fp_XOpenDisplay = true
          · simp only [h2, if_true, Run.ret.injEq, Prod.mk.injEq] at hi
            obtain ⟨⟨hne, hy⟩, -⟩ := hi
            subst hy
            simpa using hne
          · simp [h2] at hi
      · simp [h1] at hi
  · rw [if_neg hty] at hi
    simp at hi

/-- When the GLX initialize returns true with a self-created handle, the handle
is not null. -/
theorem glx_init_true_handle (env : Env) (x y : NativeDisplayGLX) (display : NativeDisplay)
    (t t1 : List Call) (hi : x.init env display t = Run.ret (true, y) t1)
    (hs : y.base.m_selfCreated = true) : y.base.m_handle ≠ 0 := by
  unfold NativeDisplayGLX.init at hi
  by_cases hty : display.type = NativeDisplayType.GLX ∨ display.type = NativeDisplayType.Auto
  · rw [if_pos hty] at hi
    by_cases ha : (x.base.acceptValidExternalHandle display).1 = true
    · rw [if_pos ha] at hi
      simp only [Run.ret.injEq, Prod.mk.injEq, true_and] at hi
      obtain ⟨hy, -⟩ := hi
      subst hy
      have := accept_true_not_selfCreated x.base display ha
      simp [this] at hs
    · rw [if_neg ha] at hi
      unfold X11_API.XInitThreads at hi
      by_cases h1 : x.x11.fp_XInitThreads = true
      · simp only [h1, if_true] at hi
        by_cases h0 : env.XInitThreads t = 0
        · simp [h0] at hi
        · simp only [h0, if_false] at hi
          unfold X11_API.XOpenDisplay at hi
          by_cases h2 : x.x11.fp_XOpenDisplay = true
          · simp only [h2, if_true, Run.ret.injEq, Prod.mk.injEq] at hi
            obtain ⟨⟨hne, hy⟩, -⟩ := hi
            subst hy
            simpa using hne
          · simp [h2] at hi
      · simp [h1] at hi
  · rw [if_neg hty] at hi
    simp at hi

/-- When the DRM initialize returns true with a self-created handle, the handle
is not -1. -/
theorem drm_init_true_handle (env : Env) (x y : NativeDisplayDrm) (display : NativeDisplay)
    (t t1 : List Call) (hi : x.init env display t = Run.ret (true, y) t1)
    (hs : y.base.m_selfCreated = true) : y.base.m_handle ≠ -1 := by
  unfold NativeDisplayDrm.init at hi
  by_cases hty : display.type = NativeDisplayType.DRM ∨ display.type = NativeDisplayType.Auto
  · rw [if_pos hty] at hi
    by_cases ha : (x.base.acceptValidExternalHandle display).1 = true
    · rw [if_pos ha] at hi
      simp only [Run.ret.injEq, Prod.mk.injEq, true_and] at hi
      obtain ⟨hy, -⟩ := hi
      subst hy
      have := accept_true_not_selfCreated x.base display ha
      simp [this] at hs
    · rw [if_neg ha] at hi
      simp only [Run.ret.injEq, Prod.mk.injEq] at hi
      obtain ⟨⟨hne, hy⟩, -⟩ := hi
      subst hy
      simpa using hne
  · rw [if_neg hty] at hi
    simp at hi

/-- When the VA-direct initialize returns true, the object is not self-created. -/
theorem va_init_true_not_selfCreated (x y : NativeDisplayVADisplay) (display : NativeDisplay)
    (t t1 : List Call) (hi : x.init display t = Run.ret (true, y) t1) :
    y.base.m_selfCreated = false := by
  unfold NativeDisplayVADisplay.init at hi
  by_cases hty : display.type = NativeDisplayType.VA
  · rw [if_pos hty] at hi
    simp only [Run.ret.injEq, Prod.mk.injEq] at hi
    obtain ⟨⟨ha, hy⟩, -⟩ := hi
    subst hy
    exact accept_true_not_selfCreated x.base display ha
  · rw [if_neg hty] at hi
    simp at hi

/-- A context returned by create holds the object its strategy's initialize
returned together with true. -/
theorem create_some_init (b : Build) (env : Env) (display : NativeDisplay) (t t1 : List Call)
    (d : display_t) (hc : display_t.create b env display t = Run.ret (some d) t1) :
    ∃ o tA tB, Native.init env o display tA = Run.ret (true, d.m_native) tB := by
  unfold display_t.create at hc
  cases hsel : (selectNative b env display.type t).1 with
  | none => simp [hsel] at hc
  | some native =>
    simp only [hsel] at hc
    cases hin : native.init env display (selectNative b env display.type t).2 with
    | aborted t2 => simp [hin] at hc
    | ret r t2 =>
      simp only [hin] at hc
      by_cases hr : r.1 = true
      · simp only [hr, if_true] at hc
        obtain ⟨-, h2, -, -⟩ := createFrom_some env display r.2 t2 t1 d hc
        refine ⟨native, (selectNative b env display.type t).2, t2, ?_⟩
        rw [hin, h2, ← hr]
      · simp only [hr, if_false] at hc
        exact absurd hc (returnNull_ne_some _ _ _ _)

/-- An object that is not self-created is destroyed without any call. -/
theorem destroy_not_selfCreated (n : Native) (t : List Call)
    (hs : n.base.m_selfCreated = false) : n.destroy t = Run.ret () t := by
  cases n <;>
    simp_all [Native.destroy, Native.base, NativeDisplayX11.destroy, NativeDisplayGLX.destroy,
      NativeDisplayDrm.destroy, NativeDisplayVADisplay.destroy]

/-- Where the claim C4 holds and where it does not. For every context returned
by create, destroyed later in the same build and environment from any log:
when m_selfCreated is false no close call is made; when m_selfCreated is true,
the close primitive is callable and the object is not a DRM strategy holding
descriptor 0, exactly one close call is made; when the object is a self-created
DRM strategy holding descriptor 0, no close call is made. -/
theorem destroy_close_calls (b : Build) (env : Env) (display : NativeDisplay)
    (t t1 t2 : List Call) (d : display_t)
    (hc : display_t.create b env display t = Run.ret (some d) t1) :
    (d.m_native.base.m_selfCreated = false →
        ∃ t3, display_t.destroy b env d t2 = Run.ret () t3 ∧ closeCount t3 = closeCount t2)
      ∧ (d.m_native.base.m_selfCreated = true → d.m_native.closeReady = true →
          d.m_native.holdsDescriptorZero = false →
          ∃ t3, display_t.destroy b env d t2 = Run.ret () t3
            ∧ closeCount t3 = closeCount t2 + 1)
      ∧ (d.m_native.base.m_selfCreated = true → d.m_native.holdsDescriptorZero = true →
          ∃ t3, display_t.destroy b env d t2 = Run.ret () t3 ∧ closeCount t3 = closeCount t2) := by
  obtain ⟨hn, hcc⟩ := dtorBody_keeps_native b env d t2
  obtain ⟨o, tA, tB, hi⟩ := create_some_init b env display t t1 d hc
  unfold display_t.destroy
  rw [hn]
  refine ⟨?_, ?_, ?_⟩
  · intro hs
    exact ⟨_, destroy_not_selfCreated _ _ hs, hcc⟩
  · intro hs hr hz
    cases hm : d.m_native with
    | x11 y =>
      rw [hm] at hs hr hi
      cases o with
      | x11 x =>
        have hinit : x.init env display tA = Run.ret (true, y) tB := by
          simp only [Native.init] at hi
          cases hx : x.init env display tA with
          | aborted _ => simp [hx] at hi
          | ret r t4 =>
            simp only [hx, Run.ret.injEq, Prod.mk.injEq, Native.x11.injEq] at hi
            obtain ⟨⟨h1, h2⟩, h3⟩ := hi
            rw [← h1, ← h2, ← h3]
        have hne := x11_init_true_handle env x y display tA tB hinit hs
        refine ⟨(display_t.dtorBody b env d t2).2 ++ [Call.XCloseDisplay y.base.m_handle], ?_, ?_⟩
        · simp only [Native.destroy, NativeDisplayX11.destroy, X11_API.XCloseDisplay]
          simp only [Native.base] at hs
          simp only [Native.closeReady] at hr
          simp only [hs, hne, hr, ne_eq, not_false_eq_true, and_self, if_true]
        · simp [closeCount, List.filter_append, Call.isClose] at hcc ⊢
          exact hcc
      | glx x => simp only [Native.init] at hi; split at hi <;> simp at hi
      | drm x => simp only [Native.init] at hi; split at hi <;> simp at hi
      | va x => simp only [Native.init] at hi; split at hi <;> simp at hi
    | glx y =>
      rw [hm] at hs hr hi
      cases o with
      | glx x =>
        have hinit : x.init env display tA = Run.ret (true, y) tB := by
          simp only [Native.init] at hi
          cases hx : x.init env display tA with
          | aborted _ => simp [hx] at hi
          | ret r t4 =>
            simp only [hx, Run.ret.injEq, Prod.mk.injEq, Native.glx.injEq] at hi
            obtain ⟨⟨h1, h2⟩, h3⟩ := hi
            rw [← h1, ← h2, ← h3]
        have hne := glx_init_true_handle env x y display tA tB hinit hs
        refine ⟨(display_t.dtorBody b env d t2).2 ++ [Call.XCloseDisplay y.base.m_handle], ?_, ?_⟩
        · simp only [Native.destroy, NativeDisplayGLX.destroy, X11_API.XCloseDisplay]
          simp only [Native.base] at hs
          simp only [Native.closeReady] at hr
          simp only [hs, hne, hr, ne_eq, not_false_eq_true, and_self, if_true]
        · simp [closeCount, List.filter_append, Call.isClose] at hcc ⊢
          exact hcc
      | x11 x => simp only [Native.init] at hi; split at hi <;> simp at hi
      | drm x => simp only [Native.init] at hi; split at hi <;> simp at hi
      | va x => simp only [Native.init] at hi; split at hi <;> simp at hi
    | drm y =>
      rw [hm] at hs hz hi
      cases o with
      | drm x =>
        have hinit : x.init env display tA = Run.ret (true, y) tB := by
          simp only [Native.init] at hi
          cases hx : x.init env display tA with
          | aborted _ => simp [hx] at hi
          | ret r t4 =>
            simp only [hx, Run.ret.injEq, Prod.mk.injEq, Native.drm.injEq] at hi
            obtain ⟨⟨h1, h2⟩, h3⟩ := hi
            rw [← h1, ← h2, ← h3]
        have hne := drm_init_true_handle env x y display tA tB hinit hs
        have hz0 : y.base.m_handle ≠ 0 := by
          simpa [Native.holdsDescriptorZero] using hz
        refine ⟨(display_t.dtorBody b env d t2).2 ++ [Call.sysClose (toCInt y.base.m_handle)],
          ?_, ?_⟩
        · simp only [Native.destroy, NativeDisplayDrm.destroy]
          simp only [Native.base] at hs
          simp only [hs, hne, hz0, ne_eq, not_false_eq_true, and_self, if_true]
        · simp [closeCount, List.filter_append, Call.isClose] at hcc ⊢
          exact hcc
      | x11 x => simp only [Native.init] at hi; split at hi <;> simp at hi
      | glx x => simp only [Native.init] at hi; split at hi <;> simp at hi
      | va x => simp only [Native.init] at hi; split at hi <;> simp at hi
    | va y =>
      rw [hm] at hs hi
      cases o with
      | va x =>
        have hinit : x.init display tA = Run.ret (true, y) tB := by
          simp only [Native.init] at hi
          cases hx : x.init display tA with
          | aborted _ => simp [hx] at hi
          | ret r t4 =>
            simp only [hx, Run.ret.injEq, Prod.mk.injEq, Native.va.injEq] at hi
            obtain ⟨⟨h1, h2⟩, h3⟩ := hi
            rw [← h1, ← h2, ← h3]
        have := va_init_true_not_selfCreated x y display tA tB hinit
        simp only [Native.base] at hs
        rw [this] at hs
        exact absurd hs (by decide)
      | x11 x => simp only [Native.init] at hi; split at hi <;> simp at hi
      | glx x => simp only [Native.init] at hi; split at hi <;> simp at hi
      | drm x => simp only [Native.init] at hi; split at hi <;> simp at hi
  · intro hs hz
    cases hm : d.m_native with
    | drm y =>
      rw [hm] at hz
      have hz0 : y.base.m_handle = 0 := by
        simpa [Native.holdsDescriptorZero] using hz
      refine ⟨(display_t.dtorBody b env d t2).2, ?_, hcc⟩
      simp [Native.destroy, NativeDisplayDrm.destroy, hz0]
    | x11 y => rw [hm] at hz; simp [Native.holdsDescriptorZero] at hz
    | glx y => rw [hm] at hz; simp [Native.holdsDescriptorZero] at hz
    | va y => rw [hm] at hz; simp [Native.holdsDescriptorZero] at hz

end vaapi
end QtAV
